import Mathlib

/-!
Verification of the validation and canonicalization layer of the
bike-builds-api data model (src/bike_builds_api/model.py and friends).

The Python code is shallowly embedded: pure string manipulation becomes
functions on Lean strings (character lists), pydantic construction and
validation becomes functions returning Option (none = ValidationError),
and payload-level validation of untyped JSON-like input becomes Bool
predicates over an explicit Json value type.
-/

namespace BikeBuilds

/-! ### Identifier canonicalizer

Embeds NamedBaseModel.id_from_name and the re.sub strip in infer_id
(model.py lines 171-193), together with the _ID_PATTERN constants
(model.py lines 96-98).
-/

/-- The character class a-z0-9_ of _ID_CHARACTERS (model.py line 96):
lowercase ASCII letters (codes 97-122), digits (48-57), underscore (95). -/
def isIdChar (c : Char) : Bool :=
  (97 ≤ c.toNat && c.toNat ≤ 122) || (48 ≤ c.toNat && c.toNat ≤ 57) || c.toNat == 95

/-- ASCII fragment of Python str.lower: map A-Z (codes 65-90) to a-z. -/
def charLower (c : Char) : Char :=
  if 65 ≤ c.toNat && c.toNat ≤ 90 then Char.ofNat (c.toNat + 32) else c

/-- Python str.lower, character-wise (ASCII fragment). -/
def pyLower (s : String) : String := ⟨s.data.map charLower⟩

/-- Python str.replace with single-character old/new: a character-wise map. -/
def pyReplaceChar (old new : Char) (s : String) : String :=
  ⟨s.data.map (fun c => if c = old then new else c)⟩

/-- NamedBaseModel.id_from_name (model.py lines 171-180):
name.lower().replace(space, underscore).replace(hyphen, underscore)
.replace(period, underscore). -/
def id_from_name (s : String) : String :=
  pyReplaceChar '.' '_' (pyReplaceChar '-' '_' (pyReplaceChar ' ' '_' (pyLower s)))

/-- re.sub(_NON_ID_CHARACTERS_PATTERN, empty, s): delete every character
outside a-z0-9_ (model.py lines 98, 188-191). -/
def stripNonId (s : String) : String := ⟨s.data.filter isIdChar⟩

/-- The full name-to-identifier canonicalization performed by
NamedBaseModel.infer_id when id is absent: id_from_name then the
re.sub strip (model.py lines 182-193). -/
def canonicalize (s : String) : String := stripNonId (id_from_name s)

/-- The inferred id computed by Part.infer_id (model.py lines 279-290):
the strip applied to manufacturer_id followed by an underscore and
id_from_name(name). -/
def partInferredId (manufacturerId name : String) : String :=
  stripNonId (manufacturerId ++ "_" ++ id_from_name name)

/-- _ID_PATTERN, the full match of a nonempty string of id characters
(model.py line 97), used by the pydantic StringConstraints on ID
(model.py line 133). -/
def matchesIdPattern (s : String) : Bool :=
  !s.data.isEmpty && s.data.all isIdChar

/-! ### Typed entity construction

Embeds pydantic construction of the typed models.  A construction that
raises a ValidationError is modelled by Option.none.  validate_assignment
is true on _BaseModel (model.py lines 148-153), so the self.id assignment
performed inside the infer_id model validator re-validates the id field
against the ID pattern (and re-runs the model validator, which then
terminates because id is no longer None).
-/

/-- The name field constraint of NamedBaseModel (model.py lines 157-163):
between 1 and 200 characters. -/
def validName (s : String) : Bool := 1 ≤ s.length && s.length ≤ 200

/-- The typed state of a NamedBaseModel instance (model.py lines 156-169):
Manufacturer, Shop and Variant add fields that do not interact with the
name/id logic. -/
structure NamedBaseModel where
  name : String
  id : Option String
  deriving DecidableEq, Repr

/-- The infer_id model validator of NamedBaseModel (model.py lines 182-193):
if id is already set it is left alone, otherwise it is inferred from name
and the assignment is validated against the ID pattern
(validate_assignment). -/
def inferIdStep (e : NamedBaseModel) : Option NamedBaseModel :=
  match e.id with
  | some _ => some e
  | none =>
      let inferred := canonicalize e.name
      if matchesIdPattern inferred then some { e with id := some inferred } else none

/-- Construction of a NamedBaseModel subclass instance from typed
arguments: field validation (name length; id pattern when a non-null id
is given) followed by the infer_id model validator. -/
def mkNamedBaseModel (name : String) (id : Option String) : Option NamedBaseModel :=
  if validName name then
    match id with
    | some s => if matchesIdPattern s then inferIdStep ⟨name, some s⟩ else none
    | none => inferIdStep ⟨name, none⟩
  else none

/-- Assignment of a new name to a validated instance: with
validate_assignment the new name is validated and the model validators,
including infer_id, run again on the updated instance. -/
def setName (e : NamedBaseModel) (newName : String) : Option NamedBaseModel :=
  if validName newName then inferIdStep { e with name := newName } else none

/-- The string values of the ComponentID enum (model.py lines 63-89). -/
def componentIdValues : List String :=
  ["bottom_bracket", "brake", "cassette", "chain", "chainring", "crankset",
   "derailleur", "fender", "fork", "frame", "handlebar", "headset", "hub",
   "pedal", "rim", "saddle", "seatpost", "shock", "stem", "tire", "tool",
   "trigger", "wheel", "spare_parts", "other"]

/-- The typed state of a Part (model.py lines 269-290); the variants list
does not interact with the id logic and is omitted from the typed state. -/
structure Part where
  name : String
  id : Option String
  component : String
  manufacturer_id : String
  deriving DecidableEq, Repr

/-- The overriding infer_id model validator of Part (model.py lines
279-290): the inferred id is the strip applied to
manufacturer_id + underscore + id_from_name(name), and its assignment is
validated against the ID pattern. -/
def partInferIdStep (p : Part) : Option Part :=
  match p.id with
  | some _ => some p
  | none =>
      let inferred := partInferredId p.manufacturer_id p.name
      if matchesIdPattern inferred then some { p with id := some inferred } else none

/-- Construction of a Part from typed arguments: field validation (name
length, component enum membership, manufacturer_id pattern, id pattern
when given) followed by Part.infer_id. -/
def mkPart (name : String) (id : Option String) (component manufacturerId : String) :
    Option Part :=
  if validName name && componentIdValues.contains component &&
      matchesIdPattern manufacturerId then
    match id with
    | some s =>
        if matchesIdPattern s then partInferIdStep ⟨name, some s, component, manufacturerId⟩
        else none
    | none => partInferIdStep ⟨name, none, component, manufacturerId⟩
  else none

/-! ### PriceTag -/

/-- Price (model.py lines 210-212).  Numeric values are modelled as
integers; no claim depends on fractional values. -/
structure Price where
  value : Int
  currency : String
  deriving DecidableEq, Repr

/-- The typed state of a PriceTag (model.py lines 215-222): four optional
fields, rating constrained to 0..5. -/
structure PriceTag where
  price : Option Price
  discount : Option Bool
  available : Option Bool
  rating : Option Nat
  deriving DecidableEq, Repr

/-- Construction of a PriceTag from typed arguments (model.py lines
215-222): the only validation is the Rating range (NonNegativeInt with
le 5, model.py line 134); the class declares no model validator, so a
PriceTag with every field null is not rejected. -/
def mkPriceTag (price : Option Price) (discount available : Option Bool)
    (rating : Option Nat) : Option PriceTag :=
  match rating with
  | some r => if r ≤ 5 then some ⟨price, discount, available, some r⟩ else none
  | none => some ⟨price, discount, available, none⟩

/-! ### ScrapeFields -/

/-- ScrapeField is supplied by the external scrape_api library
(model.py line 15) and is opaque to this layer, which only validates its
presence or absence; it is modelled as an abstract token. -/
structure ScrapeField where
  token : Nat
  deriving DecidableEq, Repr

/-- The validate_at_least_one_target model validator of ScrapeFields
(model.py lines 315-324): any(getattr(self, field) is not None for field
in self.model_fields) over the six declared fields, in declaration order
name, manufacturer, price, available, rating, discount. -/
def validate_at_least_one_target (name manufacturer price available rating
    discount : Option ScrapeField) : Bool :=
  name.isSome || manufacturer.isSome || price.isSome || available.isSome ||
    rating.isSome || discount.isSome

/-- The typed state of a ScrapeFields object (model.py lines 306-313). -/
structure ScrapeFields where
  name : Option ScrapeField
  manufacturer : Option ScrapeField
  price : Option ScrapeField
  available : Option ScrapeField
  rating : Option ScrapeField
  discount : Option ScrapeField
  deriving DecidableEq, Repr

/-- Construction of a ScrapeFields object from typed arguments: the
model validator rejects the instance when every target is null. -/
def mkScrapeFields (name manufacturer price available rating
    discount : Option ScrapeField) : Option ScrapeFields :=
  if validate_at_least_one_target name manufacturer price available rating discount then
    some ⟨name, manufacturer, price, available, rating, discount⟩
  else none

/-! ### URL template validation

Embeds re.findall of the non-greedy pattern matching a brace-opened
group up to the next closing brace (model.py line 352): the regex engine
scans left to right; at an opening brace the lazy dot-star matches any
characters except a newline up to the first closing brace; if no closing
brace is reachable the engine resumes at the next position; after a
match it resumes right after the closing brace.
-/

/-- Scan for the first closing brace, collecting the group content; fails
if a newline (which the dot cannot match) or the end of input comes
first. -/
def scanToClose : List Char → Option (List Char × List Char)
  | [] => none
  | c :: rest =>
      if c = '}' then some ([], rest)
      else if c = '\n' then none
      else
        match scanToClose rest with
        | some (content, after) => some (c :: content, after)
        | none => none

/-- One findall step with explicit fuel; the fuel only bounds the number
of recursive steps and, at the value used by findCurlyGroups, is never
exhausted, because every step strictly shortens the remaining input. -/
def findGroupsAux : Nat → List Char → List String
  | 0, _ => []
  | _ + 1, [] => []
  | fuel + 1, c :: rest =>
      if c = '{' then
        match scanToClose rest with
        | some (content, after) => String.mk content :: findGroupsAux fuel after
        | none => findGroupsAux fuel rest
      else findGroupsAux fuel rest

/-- re.findall of the brace-group pattern over a string (model.py
line 352): the list of captured group contents, in order. -/
def findCurlyGroups (s : String) : List String := findGroupsAux s.data.length s.data

/-- The validate_url_extra field validator of PageScrapeConfig (model.py
lines 345-359): the findall result must be non-empty and every captured
variable must belong to the allowed class-level variable tuple. -/
def validate_url_extra (allowed : List String) (v : String) : Bool :=
  let results := findCurlyGroups v
  !results.isEmpty && results.all (fun m => allowed.contains m)

/-- _URL_VARIABLES of PartScrapeConfig (model.py line 363). -/
def partUrlVariables : List String := ["part", "variant"]

/-- _URL_VARIABLES of SearchScrapeConfig (model.py line 369). -/
def searchUrlVariables : List String := ["query"]

/-! ### Payload-level validation

Embeds pydantic validation of untyped JSON-like payloads, as performed
by the ItemsAdapter and ScrapeResultsAdapter TypeAdapters
(adapters.py lines 30-35).  All models extend _BaseModel with
extra set to forbid (model.py lines 148-153), except PriceTag which sets
extra to ignore (model.py line 217).  A validator returning false models
a ValidationError.
-/

/-- JSON-like payload values. -/
inductive Json where
  | null
  | bool (b : Bool)
  | num (n : Int)
  | str (s : String)
  | arr (items : List Json)
  | obj (fields : List (String × Json))

/-- Key lookup in an object payload (payloads are mappings, keys unique). -/
def lookupKey (p : List (String × Json)) (k : String) : Option Json :=
  match p with
  | [] => none
  | (k2, v) :: rest => if k2 = k then some v else lookupKey rest k

/-- The extra-forbid check: every key of the payload must be a declared
field name of the model being constructed. -/
def checkKeys (allowed : List String) (p : List (String × Json)) : Bool :=
  p.all (fun kv => allowed.contains kv.1)

/-- Boundary model of the pydantic HttpUrl type (model.py lines 135-141):
an absolute http or https URL with a non-empty remainder.  No claim
depends on URL syntax details. -/
def isHttpUrl (s : String) : Bool :=
  (s.startsWith "http://" && s.length > 7) || (s.startsWith "https://" && s.length > 8)

/-- Boundary model of pydantic datetime parsing for Listing.last_modified
(model.py lines 245-248): a non-empty string or a number.  No claim
depends on timestamp syntax. -/
def isDatetimeLike (j : Json) : Bool :=
  match j with
  | .str s => !s.isEmpty
  | .num _ => true
  | _ => false

/-- An optional string field: absent, null, or a string. -/
def optStrOk (p : List (String × Json)) (k : String) : Bool :=
  match lookupKey p k with
  | none => true
  | some .null => true
  | some (.str _) => true
  | some _ => false

/-- An optional numeric field: absent, null, or a number. -/
def optNumOk (p : List (String × Json)) (k : String) : Bool :=
  match lookupKey p k with
  | none => true
  | some .null => true
  | some (.num _) => true
  | some _ => false

/-- An optional boolean field: absent, null, or a boolean. -/
def optBoolOk (p : List (String × Json)) (k : String) : Bool :=
  match lookupKey p k with
  | none => true
  | some .null => true
  | some (.bool _) => true
  | some _ => false

/-! #### ScrapeFields and scrape config payloads -/

/-- An optional ScrapeField target: ScrapeField is opaque to this layer
(external scrape_api type), so any non-null value is accepted and absent
or null means unset. -/
def optTargetOk (p : List (String × Json)) (k : String) : Bool :=
  match lookupKey p k with
  | none => true
  | some _ => true

/-- A required ScrapeField target (price in PartScrapeFields, model.py
line 328; part in SearchScrapeFields, model.py line 334): present and
non-null. -/
def reqTargetOk (p : List (String × Json)) (k : String) : Bool :=
  match lookupKey p k with
  | none => false
  | some .null => false
  | some _ => true

/-- Whether a scrape target is set, for validate_at_least_one_target:
present and non-null. -/
def targetSet (p : List (String × Json)) (k : String) : Bool :=
  match lookupKey p k with
  | none => false
  | some .null => false
  | some _ => true

/-- The declared field names of ScrapeFields (model.py lines 306-313). -/
def scrapeFieldsKeys : List String :=
  ["name", "manufacturer", "price", "available", "rating", "discount"]

/-- Payload validation of PartScrapeFields (model.py lines 327-330):
extra forbid over the six inherited fields, price required non-null, and
the inherited at-least-one-target model validator. -/
def validatePartScrapeFieldsJson (p : List (String × Json)) : Bool :=
  checkKeys scrapeFieldsKeys p &&
  optTargetOk p "name" && optTargetOk p "manufacturer" &&
  reqTargetOk p "price" &&
  optTargetOk p "available" && optTargetOk p "rating" && optTargetOk p "discount" &&
  (targetSet p "name" || targetSet p "manufacturer" || targetSet p "price" ||
   targetSet p "available" || targetSet p "rating" || targetSet p "discount")

/-- The declared field names of SearchScrapeFields (model.py lines
333-334): the six inherited fields plus part. -/
def searchScrapeFieldsKeys : List String := scrapeFieldsKeys ++ ["part"]

/-- Payload validation of SearchScrapeFields (model.py lines 333-334):
extra forbid, part required non-null, and the inherited
at-least-one-target model validator over the seven fields. -/
def validateSearchScrapeFieldsJson (p : List (String × Json)) : Bool :=
  checkKeys searchScrapeFieldsKeys p &&
  optTargetOk p "name" && optTargetOk p "manufacturer" &&
  optTargetOk p "price" && optTargetOk p "available" &&
  optTargetOk p "rating" && optTargetOk p "discount" &&
  reqTargetOk p "part" &&
  (targetSet p "name" || targetSet p "manufacturer" || targetSet p "price" ||
   targetSet p "available" || targetSet p "rating" || targetSet p "discount" ||
   targetSet p "part")

/-- Payload validation of PartScrapeConfig (model.py lines 337-365):
url_extra validated by validate_url_extra with the part-page variables,
fields a PartScrapeFields object. -/
def validatePartScrapeConfigJson (p : List (String × Json)) : Bool :=
  checkKeys ["url_extra", "fields"] p &&
  (match lookupKey p "url_extra" with
   | some (.str v) => validate_url_extra partUrlVariables v
   | _ => false) &&
  (match lookupKey p "fields" with
   | some (.obj f) => validatePartScrapeFieldsJson f
   | _ => false)

/-- Payload validation of SearchScrapeConfig (model.py lines 368-371). -/
def validateSearchScrapeConfigJson (p : List (String × Json)) : Bool :=
  checkKeys ["url_extra", "fields"] p &&
  (match lookupKey p "url_extra" with
   | some (.str v) => validate_url_extra searchUrlVariables v
   | _ => false) &&
  (match lookupKey p "fields" with
   | some (.obj f) => validateSearchScrapeFieldsJson f
   | _ => false)

/-- Payload validation of PartScrapeConfigs (model.py lines 376-378). -/
def validatePartScrapeConfigsJson (p : List (String × Json)) : Bool :=
  checkKeys ["part"] p &&
  (match lookupKey p "part" with
   | some (.obj f) => validatePartScrapeConfigJson f
   | _ => false)

/-- Payload validation of ScraperConfig (model.py lines 381-384). -/
def validateScraperConfigJson (p : List (String × Json)) : Bool :=
  checkKeys ["mode", "part", "search"] p &&
  (match lookupKey p "mode" with
   | some (.str m) => m == "browser" || m == "headless"
   | _ => false) &&
  (match lookupKey p "part" with
   | some (.obj f) => validatePartScrapeConfigsJson f
   | _ => false) &&
  (match lookupKey p "search" with
   | some (.obj f) => validateSearchScrapeConfigJson f
   | _ => false)

/-! #### PriceTag, Listing and Variant payloads -/

/-- Payload validation of Price (model.py lines 210-212). -/
def validatePriceJson (j : Json) : Bool :=
  match j with
  | .obj f =>
      checkKeys ["value", "currency"] f &&
      (match lookupKey f "value" with
       | some (.num _) => true
       | _ => false) &&
      (match lookupKey f "currency" with
       | some (.str _) => true
       | _ => false)
  | _ => false

/-- Payload validation of PriceTag (model.py lines 215-222): extra is
ignore here, so unknown keys are not checked; the four fields are
optional and rating must lie in 0..5; no model validator rejects the
all-null payload. -/
def validatePriceTagJson (p : List (String × Json)) : Bool :=
  (match lookupKey p "price" with
   | none => true
   | some .null => true
   | some j => validatePriceJson j) &&
  optBoolOk p "discount" && optBoolOk p "available" &&
  (match lookupKey p "rating" with
   | none => true
   | some .null => true
   | some (.num n) => 0 ≤ n && n ≤ 5
   | some _ => false)

/-- Payload validation of Variables (model.py lines 239-241): the single
required string field part. -/
def validateVariablesJson (p : List (String × Json)) : Bool :=
  checkKeys ["part"] p &&
  (match lookupKey p "part" with
   | some (.str _) => true
   | _ => false)

/-- Payload validation of Listing (model.py lines 244-258). -/
def validateListingJson (p : List (String × Json)) : Bool :=
  checkKeys ["last_modified", "url", "name", "manufacturer", "price_tag", "variables"] p &&
  (match lookupKey p "last_modified" with
   | none => true
   | some j => isDatetimeLike j) &&
  (match lookupKey p "url" with
   | none => true
   | some .null => true
   | some (.str u) => isHttpUrl u
   | some _ => false) &&
  optStrOk p "name" && optStrOk p "manufacturer" &&
  (match lookupKey p "price_tag" with
   | some (.obj f) => validatePriceTagJson f
   | _ => false) &&
  (match lookupKey p "variables" with
   | none => true
   | some .null => true
   | some (.obj f) => validateVariablesJson f
   | some _ => false)

/-- Payload validation of Variant (model.py lines 261-266): a
NamedBaseModel with optional year, product_code, on_wish_list and a
listings mapping keyed by shop ID; the id, when absent or null, is
inferred from name and validated against the ID pattern. -/
def validateVariantJson (p : List (String × Json)) : Bool :=
  checkKeys ["name", "id", "year", "product_code", "on_wish_list", "listings"] p &&
  (match lookupKey p "name" with
   | some (.str nm) =>
       validName nm &&
       (match lookupKey p "id" with
        | none => matchesIdPattern (canonicalize nm)
        | some .null => matchesIdPattern (canonicalize nm)
        | some (.str s) => matchesIdPattern s
        | some _ => false)
   | _ => false) &&
  optNumOk p "year" && optStrOk p "product_code" &&
  (match lookupKey p "on_wish_list" with
   | none => true
   | some (.bool _) => true
   | some _ => false) &&
  (match lookupKey p "listings" with
   | none => true
   | some (.obj f) =>
       f.all (fun kv =>
         matchesIdPattern kv.1 &&
         (match kv.2 with
          | .obj g => validateListingJson g
          | _ => false))
   | some _ => false)

/-! #### Item member payloads -/

/-- The declared field names of Part (model.py lines 269-277). -/
def partKeys : List String := ["name", "id", "component", "manufacturer_id", "variants"]

/-- The declared field names of Manufacturer (model.py lines 296-300). -/
def manufacturerKeys : List String := ["name", "id", "url"]

/-- The declared field names of Shop (model.py lines 387-398). -/
def shopKeys : List String :=
  ["name", "id", "url", "scraper_config", "currency", "mwst", "shipping_cost"]

/-- The string values of the Currency enum (model.py lines 49-53). -/
def currencyValues : List String := ["EUR", "USD", "GBP", "CHF"]

/-- Field validation of a Part payload, after the extra-forbid check:
name, component, manufacturer_id, optional explicit id or the Part
inferred id, optional variants list. -/
def partFieldsOk (p : List (String × Json)) : Bool :=
  match lookupKey p "name", lookupKey p "manufacturer_id" with
  | some (.str nm), some (.str mid) =>
      validName nm && matchesIdPattern mid &&
      (match lookupKey p "component" with
       | some (.str c) => componentIdValues.contains c
       | _ => false) &&
      (match lookupKey p "id" with
       | none => matchesIdPattern (partInferredId mid nm)
       | some .null => matchesIdPattern (partInferredId mid nm)
       | some (.str s) => matchesIdPattern s
       | some _ => false) &&
      (match lookupKey p "variants" with
       | none => true
       | some (.arr xs) =>
           xs.all (fun j =>
             match j with
             | .obj f => validateVariantJson f
             | _ => false)
       | some _ => false)
  | _, _ => false

/-- Payload validation of Part: extra-forbid key check then field
validation. -/
def validatePartPayload (p : List (String × Json)) : Bool :=
  checkKeys partKeys p && partFieldsOk p

/-- Field validation of a Manufacturer payload, after the extra-forbid
check: name, optional explicit id or the inferred id, optional url. -/
def manufacturerFieldsOk (p : List (String × Json)) : Bool :=
  match lookupKey p "name" with
  | some (.str nm) =>
      validName nm &&
      (match lookupKey p "id" with
       | none => matchesIdPattern (canonicalize nm)
       | some .null => matchesIdPattern (canonicalize nm)
       | some (.str s) => matchesIdPattern s
       | some _ => false) &&
      (match lookupKey p "url" with
       | none => true
       | some (.str u) => isHttpUrl u
       | some _ => false)
  | _ => false

/-- Payload validation of Manufacturer: extra-forbid key check then
field validation. -/
def validateManufacturerPayload (p : List (String × Json)) : Bool :=
  checkKeys manufacturerKeys p && manufacturerFieldsOk p

/-- Field validation of a Shop payload, after the extra-forbid check:
name, optional explicit id or the inferred id, required url, required
currency, optional mwst and shipping_cost, required scraper_config. -/
def shopFieldsOk (p : List (String × Json)) : Bool :=
  match lookupKey p "name" with
  | some (.str nm) =>
      validName nm &&
      (match lookupKey p "id" with
       | none => matchesIdPattern (canonicalize nm)
       | some .null => matchesIdPattern (canonicalize nm)
       | some (.str s) => matchesIdPattern s
       | some _ => false) &&
      (match lookupKey p "url" with
       | some (.str u) => isHttpUrl u
       | _ => false) &&
      (match lookupKey p "currency" with
       | some (.str c) => currencyValues.contains c
       | _ => false) &&
      optNumOk p "mwst" && optNumOk p "shipping_cost" &&
      (match lookupKey p "scraper_config" with
       | some (.obj f) => validateScraperConfigJson f
       | _ => false)
  | _ => false

/-- Payload validation of Shop: extra-forbid key check then field
validation. -/
def validateShopPayload (p : List (String × Json)) : Bool :=
  checkKeys shopKeys p && shopFieldsOk p

/-- Validation of an object payload against the Item union
Part | Manufacturer | Shop (model.py line 422, adapters.py lines 30-32):
the union validates when some member validates. -/
def itemValidate (p : List (String × Json)) : Bool :=
  validatePartPayload p || validateManufacturerPayload p || validateShopPayload p

/-! #### ScrapeResult payload -/

/-- The declared field names of ScrapeResult (model.py lines 404-413). -/
def scrapeResultKeys : List String :=
  ["name", "manufacturer", "price", "discount", "available", "rating", "part"]

/-- Field validation of a ScrapeResult payload, after the extra-forbid
check: all fields optional, rating in 0..5. -/
def scrapeResultFieldsOk (p : List (String × Json)) : Bool :=
  optStrOk p "name" && optStrOk p "manufacturer" &&
  optNumOk p "price" && optBoolOk p "discount" && optBoolOk p "available" &&
  (match lookupKey p "rating" with
   | none => true
   | some .null => true
   | some (.num n) => 0 ≤ n && n ≤ 5
   | some _ => false) &&
  optStrOk p "part"

/-- Payload validation of ScrapeResult (model.py lines 404-413,
adapters.py lines 34-35): extra-forbid key check then field
validation. -/
def validateScrapeResultPayload (p : List (String × Json)) : Bool :=
  checkKeys scrapeResultKeys p && scrapeResultFieldsOk p

/-! ### Specification-side definitions for refinement comparison -/

/-- The canonicalization pipeline exactly as the specification words it:
lower-case the input, replace each space, hyphen and period with an
underscore, then strip every character outside the id class. -/
def specCanonicalize (s : String) : String :=
  ⟨((s.data.map charLower).map
      (fun c => if c = ' ' || c = '-' || c = '.' then '_' else c)).filter isIdChar⟩

/-- The Part identifier exactly as the specification words it:
manufacturer_id, an underscore and the canonicalized name, passed once
more through the character-stripping pass. -/
def specPartId (manufacturerId name : String) : String :=
  stripNonId (manufacturerId ++ "_" ++ canonicalize name)

/-! ### Helper lemmas -/

theorem strAppendData (s t : String) : (s ++ t).data = s.data ++ t.data := by
  cases s; cases t; rfl

theorem isIdChar_toNat {c : Char} (h : isIdChar c = true) :
    ((97 ≤ c.toNat ∧ c.toNat ≤ 122) ∨ (48 ≤ c.toNat ∧ c.toNat ≤ 57)) ∨ c.toNat = 95 := by
  simp only [isIdChar, Bool.or_eq_true, Bool.and_eq_true, decide_eq_true_eq,
    beq_iff_eq] at h
  exact h

theorem charLower_of_idChar {c : Char} (h : isIdChar c = true) : charLower c = c := by
  have h2 := isIdChar_toNat h
  unfold charLower
  rw [if_neg]
  simp only [Bool.and_eq_true, decide_eq_true_eq, not_and]
  omega

theorem idChar_ne_space {c : Char} (h : isIdChar c = true) : c ≠ ' ' := by
  intro he; subst he; exact absurd h (by decide)

theorem idChar_ne_hyphen {c : Char} (h : isIdChar c = true) : c ≠ '-' := by
  intro he; subst he; exact absurd h (by decide)

theorem idChar_ne_period {c : Char} (h : isIdChar c = true) : c ≠ '.' := by
  intro he; subst he; exact absurd h (by decide)

theorem sepChainChar (c : Char) :
    (if (if (if c = ' ' then '_' else c) = '-' then '_'
         else if c = ' ' then '_' else c) = '.' then '_'
     else if (if c = ' ' then '_' else c) = '-' then '_'
     else if c = ' ' then '_' else c) =
      (if c = ' ' || c = '-' || c = '.' then '_' else c) := by
  by_cases h1 : c = ' '
  · subst h1; decide
  · by_cases h2 : c = '-'
    · subst h2; decide
    · by_cases h3 : c = '.'
      · subst h3; decide
      · simp [h1, h2, h3]

theorem dataMk (l : List Char) : (String.mk l).data = l := rfl

/-- canonicalize fixes any string all of whose characters lie in the id
class: lowering, the three separator replacements and the strip all act
as the identity there. -/
theorem canonicalize_fixes {l : List Char} (h : ∀ c ∈ l, isIdChar c = true) :
    canonicalize ⟨l⟩ = ⟨l⟩ := by
  have hlow : l.map charLower = l := by
    have := List.map_congr_left (f := charLower) (g := id)
      (fun a ha => charLower_of_idChar (h a ha))
    simpa using this
  have hs : l.map (fun c => if c = ' ' then '_' else c) = l := by
    have := List.map_congr_left (l := l) (f := fun c => if c = ' ' then '_' else c) (g := id)
      (fun a ha => by simp [idChar_ne_space (h a ha)])
    simpa using this
  have hh : l.map (fun c => if c = '-' then '_' else c) = l := by
    have := List.map_congr_left (l := l) (f := fun c => if c = '-' then '_' else c) (g := id)
      (fun a ha => by simp [idChar_ne_hyphen (h a ha)])
    simpa using this
  have hp : l.map (fun c => if c = '.' then '_' else c) = l := by
    have := List.map_congr_left (l := l) (f := fun c => if c = '.' then '_' else c) (g := id)
      (fun a ha => by simp [idChar_ne_period (h a ha)])
    simpa using this
  have hf : l.filter isIdChar = l := List.filter_eq_self.mpr h
  unfold canonicalize stripNonId id_from_name pyReplaceChar pyLower
  simp only [dataMk]
  rw [hlow, hs, hh, hp, hf]

/-- Every character of a canonicalized string lies in the id class. -/
theorem mem_canonicalize_idChar {n : String} {c : Char}
    (hc : c ∈ (canonicalize n).data) : isIdChar c = true := by
  unfold canonicalize stripNonId at hc
  simp only [dataMk] at hc
  exact (List.mem_filter.mp hc).2

/-! ### Claim theorems -/

/-- Claim C1, counterexample: the claim says a PriceTag with all four of
price, available, rating, discount null is rejected with a validation
error, but PriceTag (model.py lines 215-222) declares no model validator,
so the all-null construction succeeds. -/
theorem priceTag_all_null_not_rejected :
    mkPriceTag none none none none = some ⟨none, none, none, none⟩ := rfl

/-- Claim C1, amended: constructing a PriceTag with every one of the four
fields null succeeds (this revision has no non-empty validator on
PriceTag), and constructing a PriceTag with only available set to false
also succeeds; the same holds at payload level. -/
theorem priceTag_all_null_and_available_only_accepted :
    mkPriceTag none none none none = some ⟨none, none, none, none⟩ ∧
    mkPriceTag none none (some false) none = some ⟨none, none, some false, none⟩ ∧
    validatePriceTagJson
      [("price", Json.null), ("discount", Json.null), ("available", Json.null),
       ("rating", Json.null)] = true :=
  ⟨rfl, rfl, rfl⟩

/-- Claim C3: for every non-empty string, canonicalize lower-cases the
input, replaces each space, hyphen and period with an underscore, then
strips every character outside the id class; in particular on the two
example names of the specification. -/
theorem canonicalize_follows_spec :
    (∀ n : String, n ≠ "" → canonicalize n = specCanonicalize n) ∧
    canonicalize "Brooks England" = "brooks_england" ∧
    canonicalize "SRAM X0 (2019)" = "sram_x0_2019" := by
  refine ⟨fun n _ => ?_, rfl, rfl⟩
  unfold canonicalize stripNonId id_from_name pyReplaceChar pyLower specCanonicalize
  simp only [dataMk]
  congr 1
  simp only [List.map_map]
  congr 1
  apply List.map_congr_left
  intro a _
  simp only [Function.comp]
  exact sepChainChar (charLower a)

/-- Claim C3 witness at a concrete input. -/
theorem canonicalize_follows_spec_witness :
    ("Brooks England" : String) ≠ "" ∧
      canonicalize "Brooks England" = specCanonicalize "Brooks England" :=
  ⟨by decide, canonicalize_follows_spec.1 "Brooks England" (by decide)⟩

/-- Claim C4: the id inferred by Part.infer_id equals manufacturer_id,
an underscore and the canonicalized name, with the concatenation passed
once more through the character-stripping pass; in particular a Part
with manufacturer_id sram and name X0 and no explicit id gets id
sram_x0. -/
theorem part_id_follows_spec :
    (∀ m n : String, partInferredId m n = specPartId m n) ∧
    mkPart "X0" none "derailleur" "sram" =
      some ⟨"X0", some "sram_x0", "derailleur", "sram"⟩ := by
  constructor
  · intro m n
    unfold partInferredId specPartId canonicalize stripNonId
    congr 1
    simp only [strAppendData, dataMk, List.filter_append, List.filter_filter,
      Bool.and_self]
  · rfl

/-- Claim C6: canonicalize is idempotent on every non-empty string. -/
theorem canonicalize_idempotent (n : String) (_h : n ≠ "") :
    canonicalize (canonicalize n) = canonicalize n := by
  obtain ⟨l2, hl2⟩ : ∃ l2, canonicalize n = ⟨l2⟩ := ⟨(canonicalize n).data, rfl⟩
  rw [hl2]
  exact canonicalize_fixes fun c hc => mem_canonicalize_idChar (n := n) (by rw [hl2]; exact hc)

/-- Claim C6 witness at a concrete input. -/
theorem canonicalize_idempotent_witness :
    ("Brooks England" : String) ≠ "" ∧
      canonicalize (canonicalize "Brooks England") = canonicalize "Brooks England" :=
  ⟨by decide, canonicalize_idempotent "Brooks England" (by decide)⟩

/-- A payload containing a key outside the allowed field-name list fails
the extra-forbid check. -/
theorem checkKeys_false (ks : List String) {p : List (String × Json)} {k : String}
    {v : Json} (hmem : (k, v) ∈ p) (hk : ks.contains k = false) :
    checkKeys ks p = false := by
  cases hall : checkKeys ks p with
  | false => rfl
  | true =>
      have h2 := List.all_eq_true.mp hall (k, v) hmem
      simp only at h2
      rw [hk] at h2
      exact (Bool.false_ne_true h2).elim

/-- Claim C2: a PageScrapeConfig accepts url_extra exactly when the
brace-variable findall result is non-empty and every captured variable
lies in the fixed allowed set of the config (part and variant for part
pages, query for search pages); in particular on the three example
templates of the specification. -/
theorem url_extra_validation :
    (∀ v : String, validate_url_extra partUrlVariables v = true ↔
      (findCurlyGroups v ≠ [] ∧ ∀ m ∈ findCurlyGroups v, m ∈ partUrlVariables)) ∧
    (∀ v : String, validate_url_extra searchUrlVariables v = true ↔
      (findCurlyGroups v ≠ [] ∧ ∀ m ∈ findCurlyGroups v, m ∈ searchUrlVariables)) ∧
    validate_url_extra partUrlVariables "/products/{part}" = true ∧
    validate_url_extra partUrlVariables "/products/{sku}" = false ∧
    validate_url_extra partUrlVariables "/products/fixed" = false := by
  refine ⟨fun v => ?_, fun v => ?_, rfl, rfl, rfl⟩ <;>
    simp [validate_url_extra, List.all_eq_true, List.isEmpty_iff]

/-- Claim C5, counterexample: a well-formed Manufacturer payload whose
collection tag matches the concrete type (manufacturers) is nevertheless
rejected by the Item union, because none of Part, Manufacturer, Shop
declares a collection field and extra fields are forbidden; the same
payload without the tag validates. -/
theorem item_matching_tag_rejected :
    itemValidate [("name", Json.str "SRAM")] = true ∧
    itemValidate [("name", Json.str "SRAM"), ("collection", Json.str "manufacturers")]
      = false :=
  ⟨rfl, rfl⟩

/-- Claim C5, amended: deserializing an Item from a payload that carries
a collection key always fails validation, whether or not the tag value
matches the concrete type, since no member of the union declares that
field and all forbid extra fields; tags are never silently coerced or
ignored. -/
theorem item_collection_key_always_rejected :
    ∀ (p : List (String × Json)) (v : Json),
      ("collection", v) ∈ p → itemValidate p = false := by
  intro p v hmem
  unfold itemValidate validatePartPayload validateManufacturerPayload validateShopPayload
  rw [checkKeys_false partKeys hmem (by decide),
    checkKeys_false manufacturerKeys hmem (by decide),
    checkKeys_false shopKeys hmem (by decide)]
  rfl

/-- Claim C5 amended witness at a concrete input. -/
theorem item_collection_key_always_rejected_witness :
    ("collection", Json.null) ∈ ([("collection", Json.null)] : List (String × Json)) ∧
      itemValidate [("collection", Json.null)] = false :=
  ⟨List.Mem.head _, item_collection_key_always_rejected _ _ (List.Mem.head _)⟩

/-- Claim C7: a ScrapeFields object in which every declared scrape
target is null is rejected; construction succeeds exactly when some
target is set, and the all-null payloads of the two concrete page types
are likewise rejected. -/
theorem scrapeFields_all_null_rejected :
    mkScrapeFields none none none none none none = none ∧
    (∀ n m p a r d : Option ScrapeField,
      (mkScrapeFields n m p a r d).isSome =
        (n.isSome || m.isSome || p.isSome || a.isSome || r.isSome || d.isSome)) ∧
    validatePartScrapeFieldsJson
      [("name", Json.null), ("manufacturer", Json.null), ("price", Json.null),
       ("available", Json.null), ("rating", Json.null), ("discount", Json.null)]
      = false ∧
    validateSearchScrapeFieldsJson
      [("name", Json.null), ("manufacturer", Json.null), ("price", Json.null),
       ("available", Json.null), ("rating", Json.null), ("discount", Json.null),
       ("part", Json.null)] = false := by
  refine ⟨rfl, fun n m p a r d => ?_, rfl, rfl⟩
  unfold mkScrapeFields validate_at_least_one_target
  split
  · next hcond => exact hcond.symm
  · next hcond =>
      simp only [Bool.not_eq_true] at hcond
      exact hcond.symm

/-- Claim C8: a ScrapeResult payload carrying any field name outside the
enumerated scrape-target set fails validation even when every other
field is valid; a payload with only valid fields is accepted. -/
theorem scrapeResult_unknown_field_rejected :
    (∀ (p : List (String × Json)) (k : String) (v : Json),
      (k, v) ∈ p → k ∉ scrapeResultKeys → validateScrapeResultPayload p = false) ∧
    validateScrapeResultPayload [("name", Json.str "x")] = true := by
  constructor
  · intro p k v hmem hk
    unfold validateScrapeResultPayload
    have hc : scrapeResultKeys.contains k = false := by
      cases hcc : scrapeResultKeys.contains k with
      | false => rfl
      | true => exact absurd (List.elem_iff.mp hcc) hk
    rw [checkKeys_false scrapeResultKeys hmem hc]
    rfl
  · rfl

/-- Claim C8 witness at a concrete input. -/
theorem scrapeResult_unknown_field_rejected_witness :
    ("foo", Json.num 1) ∈
        ([("name", Json.str "x"), ("foo", Json.num 1)] : List (String × Json)) ∧
      ("foo" : String) ∉ scrapeResultKeys ∧
      validateScrapeResultPayload [("name", Json.str "x"), ("foo", Json.num 1)] = false :=
  ⟨List.Mem.tail _ (List.Mem.head _), by decide,
    scrapeResult_unknown_field_rejected.1 _ "foo" (Json.num 1)
      (List.Mem.tail _ (List.Mem.head _)) (by decide)⟩

/-- Claim C9: once a validated named entity has its id set, assigning a
new valid name leaves the id unchanged: the infer_id validator returns
the instance untouched whenever id is not null. -/
theorem id_not_recomputed_on_rename :
    ∀ (e : NamedBaseModel) (s newName : String) (e2 : NamedBaseModel),
      e.id = some s → setName e newName = some e2 → e2.id = e.id := by
  intro e s nn e2 hid hset
  obtain ⟨nm, idf⟩ := e
  simp only at hid
  subst hid
  simp only [setName, inferIdStep] at hset
  split at hset
  · cases hset
    rfl
  · exact absurd hset (by simp)

/-- Claim C9 witness at a concrete input. -/
theorem id_not_recomputed_on_rename_witness :
    (⟨"Brooks England", some "brooks_england"⟩ : NamedBaseModel).id
        = some "brooks_england" ∧
      setName ⟨"Brooks England", some "brooks_england"⟩ "Shimano"
        = some ⟨"Shimano", some "brooks_england"⟩ ∧
      (⟨"Shimano", some "brooks_england"⟩ : NamedBaseModel).id
        = (⟨"Brooks England", some "brooks_england"⟩ : NamedBaseModel).id :=
  ⟨rfl, rfl, id_not_recomputed_on_rename _ "brooks_england" "Shimano" _ rfl rfl⟩

/-- Claim C10: every successfully constructed named entity carries a
non-null id made of characters of the id class (the inferred id is
validated against the ID pattern on assignment), and a name with no
character surviving canonicalization makes construction fail. -/
theorem constructed_id_valid :
    (∀ (nm : String) (idOpt : Option String) (e : NamedBaseModel),
      mkNamedBaseModel nm idOpt = some e →
        ∃ s, e.id = some s ∧ matchesIdPattern s = true) ∧
    (∀ (nm : String) (idOpt : Option String) (comp mid : String) (pt : Part),
      mkPart nm idOpt comp mid = some pt →
        ∃ s, pt.id = some s ∧ matchesIdPattern s = true) ∧
    mkNamedBaseModel "!!!" none = none := by
  refine ⟨?_, ?_, rfl⟩
  · intro nm idOpt e hmk
    by_cases hval : validName nm = true
    · cases idOpt with
      | some s0 =>
          by_cases hpat : matchesIdPattern s0 = true
          · have hred : mkNamedBaseModel nm (some s0) = some ⟨nm, some s0⟩ := by
              simp [mkNamedBaseModel, inferIdStep, hval, hpat]
            rw [hred] at hmk
            injection hmk with h
            subst h
            exact ⟨s0, rfl, hpat⟩
          · simp [mkNamedBaseModel, hval, hpat] at hmk
      | none =>
          by_cases hpat : matchesIdPattern (canonicalize nm) = true
          · have hred : mkNamedBaseModel nm none = some ⟨nm, some (canonicalize nm)⟩ := by
              simp [mkNamedBaseModel, inferIdStep, hval, hpat]
            rw [hred] at hmk
            injection hmk with h
            subst h
            exact ⟨canonicalize nm, rfl, hpat⟩
          · simp [mkNamedBaseModel, inferIdStep, hval, hpat] at hmk
    · simp [mkNamedBaseModel, hval] at hmk
  · intro nm idOpt comp mid pt hmk
    by_cases hv : validName nm = true ∧ comp ∈ componentIdValues ∧
        matchesIdPattern mid = true
    · cases idOpt with
      | some s0 =>
          by_cases hpat : matchesIdPattern s0 = true
          · have hred : mkPart nm (some s0) comp mid =
                some ⟨nm, some s0, comp, mid⟩ := by
              simp [mkPart, partInferIdStep, hv.1, hv.2.1, hv.2.2, hpat]
            rw [hred] at hmk
            injection hmk with h
            subst h
            exact ⟨s0, rfl, hpat⟩
          · simp [mkPart, hv.1, hv.2.1, hv.2.2, hpat] at hmk
      | none =>
          by_cases hpat : matchesIdPattern (partInferredId mid nm) = true
          · have hred : mkPart nm none comp mid =
                some ⟨nm, some (partInferredId mid nm), comp, mid⟩ := by
              simp [mkPart, partInferIdStep, hv.1, hv.2.1, hv.2.2, hpat]
            rw [hred] at hmk
            injection hmk with h
            subst h
            exact ⟨partInferredId mid nm, rfl, hpat⟩
          · simp [mkPart, partInferIdStep, hv.1, hv.2.1, hv.2.2, hpat] at hmk
    · simp [mkPart] at hmk
      exact absurd ⟨hmk.1.1.1, hmk.1.1.2, hmk.1.2⟩ hv

/-- Claim C10 witness at a concrete input. -/
theorem constructed_id_valid_witness :
    mkNamedBaseModel "Brooks England" none =
        some ⟨"Brooks England", some "brooks_england"⟩ ∧
      ∃ s, (⟨"Brooks England", some "brooks_england"⟩ : NamedBaseModel).id = some s ∧
        matchesIdPattern s = true :=
  ⟨rfl, constructed_id_valid.1 "Brooks England" none _ rfl⟩

end BikeBuilds
